import Mathlib

/-!
Verification of the `RootsploixLicense` license-tier gate
(`src/rootsploix_license.py`) against its natural-language specification.

Shallow embedding conventions:
* Python `str` is Lean `String`; character-level operations (`upper`,
  `startswith`, `split('-')`) work on `String.data : List Char`.
  `str.upper()` is modelled as per-character `Char.toUpper` (the keys in
  play are ASCII, where the two coincide).
* Python `int` is Lean `Int`.
* The usage dictionary's `get(key, 0)` is modelled by `Option Int` fields
  read with `Option.getD 0`; an absent counter is `none`.
* The heterogeneous result dictionaries of `validate_license` are modelled
  by the sum type `LicenseInfo`: the success shape carries
  `status`/`features`/`expires`, the failure shape carries the error string,
  and the method's `Tuple[bool, Dict]` return is `Bool × LicenseInfo`.
* The `try`/`except` boundary of `validate_license` is modelled by
  `validate_license_caught`, which takes an optional injected runtime fault:
  `none` runs the method body, `some e` is the handler of line 77-78.
* The methods assign no attribute of `self`; the state-passing wrappers
  `validate_call` / `check_call` make that explicit by returning the
  post-state alongside the result.
-/

/-- The feature dictionaries appearing in the source: `demo_limits`
(`__init__`, lines 26-32) and the `features` values built by
`validate_license`. -/
structure Features where
  max_scans : Int
  max_targets : Int
  advanced_features : Bool
  reporting : Bool
  threading : Int
deriving Repr, DecidableEq

/-- The info dictionary returned by `validate_license`: either the success
shape `{'status': ..., 'features': ..., 'expires': ...}` or the failure
shape `{'error': ...}`. `expires` is always `None` in the source, modelled
as `Option Int`. -/
inductive LicenseInfo where
  | valid (status : String) (features : Features) (expires : Option Int)
  | error (msg : String)
deriving Repr, DecidableEq

/-- The usage dictionary passed to `check_demo_limits`; `none` models an
absent key, read back with `Option.getD 0` as the source's
`current_usage.get(..., 0)` does. -/
structure UsageSnapshot where
  scan_count : Option Int
  target_count : Option Int
deriving Repr, DecidableEq

/-- The `RootsploixLicense` instance state set by `__init__`
(lines 22-32). -/
structure RootsploixLicense where
  tool_name : String
  version : String
  license_server : String
  demo_limits : Features
deriving Repr, DecidableEq

/-- `__init__` (lines 22-32): stores identity, the license-server URL and
the fixed demo defaults. -/
def RootsploixLicense.construct (tool_name : String)
    (version : String) : RootsploixLicense :=
  { tool_name := tool_name
    version := version
    license_server := "https://api.rootsploix.com/license"
    demo_limits :=
      { max_scans := 10
        max_targets := 1
        advanced_features := false
        reporting := false
        threading := 1 } }

/-- Python `str.upper()` restricted to per-character uppercasing. -/
def pyUpper (s : String) : String :=
  String.mk (s.data.map Char.toUpper)

/-- Python `str.split(sep)` for a one-character separator: splits on every
occurrence of `sep`, keeping empty fields (`"".split('-') == ['']`). -/
def splitOnChar (sep : Char) : List Char → List (List Char)
  | [] => [[]]
  | c :: cs =>
    match splitOnChar sep cs with
    | [] => [[]]
    | p :: ps => if c = sep then [] :: p :: ps else (c :: p) :: ps

/-- `_validate_key_format` (lines 80-86): the key must start with
`"RXPRO-"` (modelled as `take 6` of the character list) and split on `'-'`
into exactly 5 parts with every part after the first of length 5. -/
def validate_key_format (license_key : String) : Bool :=
  if license_key.data.take 6 = "RXPRO-".data then
    let parts := splitOnChar '-' license_key.data
    parts.length == 5 && parts.tail.all (fun part => part.length == 5)
  else
    false

/-- The professional feature set built by `validate_license`
(lines 65-71). -/
def professional_features : Features :=
  { max_scans := -1
    max_targets := -1
    advanced_features := true
    reporting := true
    threading := -1 }

/-- `validate_license` (lines 34-78), the body inside the `try`: the demo
literal check, then the structural format check, else the format error. -/
def validate_license (self : RootsploixLicense)
    (license_key : String) : Bool × LicenseInfo :=
  if pyUpper license_key == "DEMO" then
    (true, .valid "demo" self.demo_limits none)
  else if validate_key_format license_key then
    (true, .valid "professional" professional_features none)
  else
    (false, .error "Invalid license key format")

/-- `validate_license` including its `except` clause (lines 77-78): a
runtime fault `some e` raised inside the `try` is converted to the
`{'error': 'License validation failed: ...'}` result; with no fault the
body's result is returned. -/
def validate_license_caught (self : RootsploixLicense)
    (license_key : String) (fault : Option String) : Bool × LicenseInfo :=
  match fault with
  | some e => (false, .error ("License validation failed: " ++ e))
  | none => validate_license self license_key

/-- `check_demo_limits` (lines 133-149): the scan-count check (inclusive,
line 143) runs first, then the target-count check (strict, line 146); the
limits come from `self.demo_limits`, not from any entitlement. -/
def check_demo_limits (self : RootsploixLicense)
    (current_usage : UsageSnapshot) : Bool × String :=
  if current_usage.scan_count.getD 0 ≥ self.demo_limits.max_scans then
    (false, "Demo limit reached: " ++ toString self.demo_limits.max_scans
      ++ " scans maximum")
  else if current_usage.target_count.getD 0 > self.demo_limits.max_targets then
    (false, "Demo limit: " ++ toString self.demo_limits.max_targets
      ++ " target maximum")
  else
    (true, "Within demo limits")

/-- The spec's `CheckUsage(entitlement, usage)` interface over the source:
the source method `check_demo_limits` takes no entitlement parameter, so
the entitlement argument is dispatched to it unread. -/
def checkUsage (self : RootsploixLicense) (entitlement : Features)
    (usage : UsageSnapshot) : Bool × String :=
  check_demo_limits self usage

/-- A `Validate` call in state-passing form: the method body assigns no
attribute of `self`, so the post-state is the pre-state. -/
def validate_call (self : RootsploixLicense) (license_key : String) :
    (Bool × LicenseInfo) × RootsploixLicense :=
  (validate_license self license_key, self)

/-- A `CheckUsage` call in state-passing form: the method body assigns no
attribute of `self`, so the post-state is the pre-state. -/
def check_call (self : RootsploixLicense) (entitlement : Features)
    (usage : UsageSnapshot) : (Bool × String) × RootsploixLicense :=
  (checkUsage self entitlement usage, self)

example : validate_license (RootsploixLicense.construct "TestTool" "2.1.0")
    "DEMO" = (true, .valid "demo" ⟨10, 1, false, false, 1⟩ none) := by decide

example : validate_license (RootsploixLicense.construct "TestTool" "2.1.0")
    "RXPRO-ABC12-DEF34-GHI56-JKL78" =
    (true, .valid "professional" professional_features none) := by decide

example : validate_license (RootsploixLicense.construct "TestTool" "2.1.0")
    "RXPRO-AB-DEF34-GHI56-JKL78" =
    (false, .error "Invalid license key format") := by decide

example : check_demo_limits (RootsploixLicense.construct "TestTool" "2.1.0")
    ⟨some 10, some 1⟩ = (false, "Demo limit reached: 10 scans maximum") := by
  decide

example : check_demo_limits (RootsploixLicense.construct "TestTool" "2.1.0")
    ⟨some 5, some 2⟩ = (false, "Demo limit: 1 target maximum") := by decide

example : check_demo_limits (RootsploixLicense.construct "TestTool" "2.1.0")
    ⟨some 5, some 1⟩ = (true, "Within demo limits") := by decide

/-- On any constructed instance, `check_demo_limits` is exactly the
demo-default three-way check, with the messages fully evaluated. -/
lemma check_demo_limits_construct (t v : String) (u : UsageSnapshot) :
    check_demo_limits (RootsploixLicense.construct t v) u =
      if u.scan_count.getD 0 ≥ 10 then
        (false, "Demo limit reached: 10 scans maximum")
      else if u.target_count.getD 0 > 1 then
        (false, "Demo limit: 1 target maximum")
      else
        (true, "Within demo limits") := rfl

/-- C1: corrected. `CheckUsage` does not consult the entitlement's limits at
all — the source's `check_demo_limits` takes no entitlement parameter and
reads `self.demo_limits` — so for every entitlement, including one with
`maxScans = maxTargets = −1`, it enforces the fixed demo defaults: false
with the 10-scans message when `scanCount ≥ 10`, else false with the
1-target message when `targetCount > 1`, else `(true, "Within demo
limits")`. -/
theorem claim_C1_amended_enforces_demo_defaults (t v : String)
    (entitlement : Features) (u : UsageSnapshot) :
    checkUsage (RootsploixLicense.construct t v) entitlement u =
      if u.scan_count.getD 0 ≥ 10 then
        (false, "Demo limit reached: 10 scans maximum")
      else if u.target_count.getD 0 > 1 then
        (false, "Demo limit: 1 target maximum")
      else
        (true, "Within demo limits") :=
  check_demo_limits_construct t v u

/-- C1: the claim as stated is false — on the Professional entitlement
(all limits −1) with usage `{scanCount: 100000, targetCount: 100000}`,
`CheckUsage` does not return `(true, "Within demo limits")`. -/
theorem claim_C1_counterexample :
    checkUsage (RootsploixLicense.construct "TestTool" "2.1.0")
      professional_features ⟨some 100000, some 100000⟩ ≠
      (true, "Within demo limits") := by decide

/-- C3: a key whose per-character uppercasing equals `"DEMO"` validates to
the demo result: valid, status `demo`, exactly the fixed demo defaults
`{maxScans 10, maxTargets 1, advancedFeatures false, reporting false,
maxThreads 1}`, and no expiry. -/
theorem claim_C3_demo_key_gets_demo_defaults (t v key : String)
    (h : pyUpper key = "DEMO") :
    validate_license (RootsploixLicense.construct t v) key =
      (true, .valid "demo" ⟨10, 1, false, false, 1⟩ none) := by
  simp [validate_license, h, RootsploixLicense.construct]

/-- C3 witness: the mixed-case key `"DeMo"` gets the demo entitlement. -/
theorem claim_C3_witness :
    validate_license (RootsploixLicense.construct "TestTool" "2.1.0") "DeMo" =
      (true, .valid "demo" ⟨10, 1, false, false, 1⟩ none) :=
  claim_C3_demo_key_gets_demo_defaults "TestTool" "2.1.0" "DeMo" (by decide)

/-- C4: under the Demo entitlement the scan check is inclusive (`≥`), runs
first and wins; the target check is strict (`>`) and runs second; otherwise
the call succeeds. -/
theorem claim_C4_demo_asymmetric_ordered_checks (t v : String)
    (u : UsageSnapshot) :
    (u.scan_count.getD 0 ≥ 10 →
      checkUsage (RootsploixLicense.construct t v) ⟨10, 1, false, false, 1⟩ u =
        (false, "Demo limit reached: 10 scans maximum")) ∧
    (u.scan_count.getD 0 < 10 → u.target_count.getD 0 > 1 →
      checkUsage (RootsploixLicense.construct t v) ⟨10, 1, false, false, 1⟩ u =
        (false, "Demo limit: 1 target maximum")) ∧
    (u.scan_count.getD 0 < 10 → u.target_count.getD 0 ≤ 1 →
      checkUsage (RootsploixLicense.construct t v) ⟨10, 1, false, false, 1⟩ u =
        (true, "Within demo limits")) := by
  refine ⟨fun h1 => ?_, fun h1 h2 => ?_, fun h1 h2 => ?_⟩ <;>
    rw [checkUsage, check_demo_limits_construct]
  · rw [if_pos h1]
  · rw [if_neg (by omega), if_pos h2]
  · rw [if_neg (by omega), if_neg (by omega)]

/-- C4 witness: at `{scanCount: 10, targetCount: 5}` both limits are
exceeded and the scan-count check, evaluated first, wins. -/
theorem claim_C4_witness :
    checkUsage (RootsploixLicense.construct "TestTool" "2.1.0")
      ⟨10, 1, false, false, 1⟩ ⟨some 10, some 5⟩ =
      (false, "Demo limit reached: 10 scans maximum") :=
  (claim_C4_demo_asymmetric_ordered_checks "TestTool" "2.1.0"
    ⟨some 10, some 5⟩).1 (by decide)

/-- C6: validating the same key twice in sequence — the second call running
on the state left by the first — yields structurally equal results. -/
theorem claim_C6_validate_idempotent (g : RootsploixLicense) (key : String) :
    (validate_call g key).1 =
      (validate_call ((validate_call g key).2) key).1 := rfl

/-- C7: neither call mutates the instance: the post-state of a `Validate`
or `CheckUsage` call is the pre-state, so tool name, version and the demo
defaults are unchanged. -/
theorem claim_C7_calls_leave_state_unchanged (g : RootsploixLicense)
    (key : String) (e : Features) (u : UsageSnapshot) :
    (validate_call g key).2 = g ∧
    (check_call g e u).2 = g ∧
    (validate_call g key).2.tool_name = g.tool_name ∧
    (validate_call g key).2.version = g.version ∧
    (check_call g e u).2.demo_limits = g.demo_limits :=
  ⟨rfl, rfl, rfl, rfl, rfl⟩

/-- C8: `CheckUsage` is independent of the entitlement argument, and on
instances with equal demo defaults it returns identical verdicts and
messages — the result depends only on the usage counters and the defaults
fixed at construction. -/
theorem claim_C8_entitlement_independent (g1 g2 : RootsploixLicense)
    (e1 e2 : Features) (u : UsageSnapshot) :
    checkUsage g1 e1 u = checkUsage g1 e2 u ∧
    (g1.demo_limits = g2.demo_limits →
      checkUsage g1 e1 u = checkUsage g2 e2 u) := by
  refine ⟨rfl, fun h => ?_⟩
  unfold checkUsage check_demo_limits
  rw [h]

/-- C8 witness: instances differing in identity but sharing the demo
defaults agree, whatever entitlements are passed. -/
theorem claim_C8_witness :
    checkUsage (RootsploixLicense.construct "A" "1.0") professional_features
      ⟨some 3, some 0⟩ =
    checkUsage (RootsploixLicense.construct "B" "2.0")
      ⟨10, 1, false, false, 1⟩ ⟨some 3, some 0⟩ :=
  (claim_C8_entitlement_independent (RootsploixLicense.construct "A" "1.0")
    (RootsploixLicense.construct "B" "2.0") professional_features
    ⟨10, 1, false, false, 1⟩ ⟨some 3, some 0⟩).2 (by decide)

/-- C9: an absent usage counter is read as 0 — dropping either counter is
indistinguishable from supplying 0 — and the empty snapshot is within
limits. -/
theorem claim_C9_missing_counters_default_to_zero (t v : String)
    (s tc : Option Int) :
    check_demo_limits (RootsploixLicense.construct t v) ⟨none, tc⟩ =
      check_demo_limits (RootsploixLicense.construct t v) ⟨some 0, tc⟩ ∧
    check_demo_limits (RootsploixLicense.construct t v) ⟨s, none⟩ =
      check_demo_limits (RootsploixLicense.construct t v) ⟨s, some 0⟩ ∧
    check_demo_limits (RootsploixLicense.construct t v) ⟨none, none⟩ =
      (true, "Within demo limits") :=
  ⟨rfl, rfl, rfl⟩

lemma splitOnChar_ne_nil (sep : Char) (l : List Char) :
    splitOnChar sep l ≠ [] := by
  induction l with
  | nil => simp [splitOnChar]
  | cons c cs ih =>
    obtain ⟨p, ps, h⟩ := List.exists_cons_of_ne_nil ih
    by_cases hc : c = sep <;> simp [splitOnChar, h, hc]

lemma splitOnChar_cons_sep (sep : Char) (cs : List Char) :
    splitOnChar sep (sep :: cs) = [] :: splitOnChar sep cs := by
  obtain ⟨p, ps, h⟩ := List.exists_cons_of_ne_nil (splitOnChar_ne_nil sep cs)
  simp [splitOnChar, h]

lemma splitOnChar_cons_of_ne (sep c : Char) (hc : c ≠ sep) (cs : List Char)
    (p : List Char) (ps : List (List Char))
    (h : splitOnChar sep cs = p :: ps) :
    splitOnChar sep (c :: cs) = (c :: p) :: ps := by
  simp [splitOnChar, h, hc]

/-- Field lengths plus field count reconstruct the input length: every
separator consumed adds one field, so `sum of lengths + #fields =
length + 1`. -/
lemma splitOnChar_length_sum (sep : Char) (l : List Char) :
    ((splitOnChar sep l).map List.length).sum + (splitOnChar sep l).length =
      l.length + 1 := by
  induction l with
  | nil => simp [splitOnChar]
  | cons c cs ih =>
    obtain ⟨p, ps, h⟩ := List.exists_cons_of_ne_nil (splitOnChar_ne_nil sep cs)
    by_cases hc : c = sep
    · subst hc
      rw [h] at ih
      rw [splitOnChar_cons_sep, h]
      simp at ih ⊢
      omega
    · rw [splitOnChar_cons_of_ne sep c hc cs p ps h]
      rw [h] at ih
      simp at ih ⊢
      omega

/-- Splitting a key that starts with `"RXPRO-"` peels off the literal
`RXPRO` field and splits the remainder. -/
lemma splitOnChar_rxpro (rest : List Char) :
    splitOnChar '-' ("RXPRO-".data ++ rest) =
      "RXPRO".data :: splitOnChar '-' rest := by
  obtain ⟨p, ps, h⟩ := List.exists_cons_of_ne_nil (splitOnChar_ne_nil '-' rest)
  show splitOnChar '-' ('R' :: 'X' :: 'P' :: 'R' :: 'O' :: '-' :: rest) =
    ['R', 'X', 'P', 'R', 'O'] :: splitOnChar '-' rest
  rw [splitOnChar_cons_of_ne '-' 'R' (by decide)
    ('X' :: 'P' :: 'R' :: 'O' :: '-' :: rest)]
  rw [splitOnChar_cons_of_ne '-' 'X' (by decide)
    ('P' :: 'R' :: 'O' :: '-' :: rest)]
  rw [splitOnChar_cons_of_ne '-' 'P' (by decide) ('R' :: 'O' :: '-' :: rest)]
  rw [splitOnChar_cons_of_ne '-' 'R' (by decide) ('O' :: '-' :: rest)]
  rw [splitOnChar_cons_of_ne '-' 'O' (by decide) ('-' :: rest)]
  rw [splitOnChar_cons_sep, h]

/-- `validate_key_format` in propositional form. -/
lemma validate_key_format_iff (key : String) :
    validate_key_format key = true ↔
      key.data.take 6 = "RXPRO-".data ∧
      (splitOnChar '-' key.data).length = 5 ∧
      ∀ p ∈ (splitOnChar '-' key.data).tail, p.length = 5 := by
  by_cases htake : key.data.take 6 = "RXPRO-".data
  · simp [validate_key_format, htake, List.all_eq_true]
  · simp [validate_key_format, htake]

/-- Only the format branch of `validate_license` yields the professional
result. -/
lemma validate_professional_imp (t v key : String)
    (h : validate_license (RootsploixLicense.construct t v) key =
      (true, .valid "professional" professional_features none)) :
    validate_key_format key = true := by
  by_cases hd : (pyUpper key == "DEMO") = true
  · rw [validate_license, if_pos hd] at h
    simp [RootsploixLicense.construct, professional_features] at h
  · by_cases hf : validate_key_format key = true
    · exact hf
    · rw [validate_license, if_neg hd, if_neg (by simp [hf])] at h
      simp at h

/-- C2: for a key that does not uppercase to `"DEMO"`, `Validate` yields
the professional result — valid, all numeric limits −1, both flags true,
no expiry — exactly when the key starts with `"RXPRO-"` and splits on `'-'`
into exactly 5 fields whose 4 trailing fields each have length 5. -/
theorem claim_C2_professional_iff_well_formed (t v key : String)
    (hd : pyUpper key ≠ "DEMO") :
    validate_license (RootsploixLicense.construct t v) key =
      (true, .valid "professional" ⟨-1, -1, true, true, -1⟩ none) ↔
      (key.data.take 6 = "RXPRO-".data ∧
       (splitOnChar '-' key.data).length = 5 ∧
       ∀ p ∈ (splitOnChar '-' key.data).tail, p.length = 5) := by
  rw [← validate_key_format_iff]
  constructor
  · exact validate_professional_imp t v key
  · intro hf
    rw [validate_license, if_neg (by simp [hd]), if_pos hf]
    rfl

/-- C2 witness: `"RXPRO-ABC12-DEF34-GHI56-JKL78"` is not the demo literal,
is well-formed, and validates to the professional entitlement. -/
theorem claim_C2_witness :
    pyUpper "RXPRO-ABC12-DEF34-GHI56-JKL78" ≠ "DEMO" ∧
    validate_license (RootsploixLicense.construct "TestTool" "2.1.0")
      "RXPRO-ABC12-DEF34-GHI56-JKL78" =
      (true, .valid "professional" ⟨-1, -1, true, true, -1⟩ none) :=
  ⟨by decide,
    (claim_C2_professional_iff_well_formed "TestTool" "2.1.0"
      "RXPRO-ABC12-DEF34-GHI56-JKL78" (by decide)).mpr (by decide)⟩

/-- C5: validation is a total function into result values. A key matching
neither the demo literal nor the well-formed pattern yields
`Invalid("Invalid license key format")`; a runtime fault raised inside the
body is caught and converted to `Invalid("License validation failed: " ++
description)`; with no fault the exception boundary is transparent. -/
theorem claim_C5_total_never_raises (t v key : String) :
    (pyUpper key ≠ "DEMO" → validate_key_format key = false →
      validate_license (RootsploixLicense.construct t v) key =
        (false, .error "Invalid license key format")) ∧
    (∀ e : String,
      validate_license_caught (RootsploixLicense.construct t v) key (some e) =
        (false, .error ("License validation failed: " ++ e))) ∧
    validate_license_caught (RootsploixLicense.construct t v) key none =
      validate_license (RootsploixLicense.construct t v) key := by
  refine ⟨fun hd hf => ?_, fun e => rfl, rfl⟩
  rw [validate_license, if_neg (by simp [hd]), if_neg (by simp [hf])]

/-- C5 witness: the empty string matches neither branch and yields the
format error without raising. -/
theorem claim_C5_witness :
    validate_license (RootsploixLicense.construct "TestTool" "2.1.0") "" =
      (false, .error "Invalid license key format") :=
  (claim_C5_total_never_raises "TestTool" "2.1.0" "").1 (by decide) (by decide)

/-- C10: every key accepted as professional has length exactly 29: the
5-character `RXPRO` field plus four 5-character fields and four `'-'`
separators. -/
theorem claim_C10_professional_key_length (t v key : String)
    (h : validate_license (RootsploixLicense.construct t v) key =
      (true, .valid "professional" ⟨-1, -1, true, true, -1⟩ none)) :
    key.length = 29 := by
  have hf := validate_professional_imp t v key h
  rw [validate_key_format_iff] at hf
  obtain ⟨htake, hlen, hparts⟩ := hf
  have hdata : key.data = "RXPRO-".data ++ key.data.drop 6 := by
    conv_lhs => rw [← List.take_append_drop 6 key.data]
    rw [htake]
  have hsplit := splitOnChar_rxpro (key.data.drop 6)
  rw [hdata, hsplit] at hlen hparts
  have hr4 : (splitOnChar '-' (key.data.drop 6)).length = 4 := by
    simpa using hlen
  have hall : ∀ p ∈ splitOnChar '-' (key.data.drop 6), p.length = 5 := by
    simpa using hparts
  have hsum := splitOnChar_length_sum '-' (key.data.drop 6)
  have hrep : (splitOnChar '-' (key.data.drop 6)).map List.length =
      List.replicate 4 5 := by
    apply List.eq_replicate_iff.mpr
    refine ⟨by simpa using hr4, ?_⟩
    intro b hb
    obtain ⟨p, hp, rfl⟩ := List.mem_map.mp hb
    exact hall p hp
  rw [hrep, hr4] at hsum
  have hrest : (key.data.drop 6).length = 23 := by
    have h20 : (List.replicate 4 (5 : Nat)).sum = 20 := by decide
    omega
  show key.data.length = 29
  rw [hdata]
  simp [hrest]

/-- C10 witness: the sample professional key validates and has length
29. -/
theorem claim_C10_witness :
    validate_license (RootsploixLicense.construct "TestTool" "2.1.0")
      "RXPRO-ABC12-DEF34-GHI56-JKL78" =
      (true, .valid "professional" ⟨-1, -1, true, true, -1⟩ none) ∧
    ("RXPRO-ABC12-DEF34-GHI56-JKL78" : String).length = 29 :=
  ⟨by decide,
    claim_C10_professional_key_length "TestTool" "2.1.0"
      "RXPRO-ABC12-DEF34-GHI56-JKL78" (by decide)⟩
